import Mathlib

/-!
# Verification of the AI-styler catalog aggregation and recommendation engine

Shallow embedding of `src/services/marketplace.py` and
`src/services/recommendations.py` of the AI-styler repository, together with
proofs settling the frozen claims about the specification.

Modelling conventions:
* Python dict-shaped catalog/inventory records become the `Item` structure;
  fields that the code reads with `dict.get` (returning `None` when absent)
  become `Option` fields.
* Python floats become `ℚ`.  All score constants (`0.4`, `1.3`, …) are exact
  decimal rationals.  The only float operation whose rounding could matter is
  `budget_krw * 1.3` in `_budget_score`; for every budget with
  `|budget_krw| < 2^52` the IEEE-double comparison agrees with the exact
  rational comparison (the exact threshold `budget_krw * 13/10` is an integer
  because `budget_krw` is a multiple of 10, and the float product deviates
  from it by less than half an ulp), so the rational model is faithful.
* `round(x, 3)` is modelled as `round3` (floor of `x*1000 + 1/2` over 1000).
  Python rounds half-to-even on floats; the two differ only on exact
  `0.0005` ties, and every claim uses the same `round3` on both sides.
* `sorted(..., reverse=True)` (a stable descending sort) is modelled by
  `List.insertionSort r` with `r a b` ↔ "a may precede b" (key of `a` ≥ key
  of `b`): `orderedInsert` places each element before the first element it is
  not strictly beaten by, so earlier elements win ties, exactly like
  CPython's stable sort.
* Network / filesystem fetching (`sources.fetch_*`, the static catalog file)
  is I/O; each source's outcome (items or exception text) is passed to
  `load_catalog` explicitly as an `Except String (List Item)` value, which is
  exactly the information the Python `try/except` blocks consume.
* Raising code is embedded as `Except`-valued code.  In particular, the call
  of `load_catalog` inside `wishlist_suggestions` (recommendations.py line
  294) passes the keyword `refresh_static=`, which `load_catalog`
  (marketplace.py lines 45-55) does not accept, so Python keyword binding
  raises `TypeError` on every run of `wishlist_suggestions`; the binding
  step is modelled by `load_catalog_call` and the (dead) continuation of the
  function by `wishlist_compute`.
-/

namespace AIStyler

/-- A catalog or inventory record (the Python code passes both around as
dict-shaped records with these keys; `dict.get` misses become `none`). -/
structure Item where
  name : Option String := none
  category : String := ""
  color : String := ""
  style_tags : List String := []
  season : List String := []
  price_krw : Option Int := none
  image_url : Option String := none
  product_url : Option String := none
  source_id : Option String := none
  source : Option String := none
deriving DecidableEq, Repr, Inhabited

/-- The user profile consumed by the scoring engine
(`profile.get("style_preferences", [])`, `profile.get("season", [])`,
`profile.get("budget")` in the source). -/
structure Profile where
  style_preferences : List String := []
  season : List String := []
  budget : Option Int := none
deriving DecidableEq, Repr, Inhabited

/-- Python `str.strip()`: drop leading and trailing whitespace (defined
structurally on the character list so that it evaluates). -/
def pyStrip (s : String) : String :=
  ⟨((s.data.dropWhile Char.isWhitespace).reverse.dropWhile
    Char.isWhitespace).reverse⟩

/-- Python `a or b` on optional strings: `None` and `""` are falsy. -/
def pyOr (a b : Option String) : Option String :=
  match a with
  | some s => if s = "" then b else some s
  | none => b

/-- `recommendations._normalise_tags`: strip each token and drop empties.
(The Python branch that splits a comma-separated string is input
normalisation for the str case; the records modelled here always carry
lists.) -/
def _normalise_tags (raw : List String) : List String :=
  (raw.map pyStrip).filter (fun t => t ≠ "")

/-- `recommendations.COLOR_FAMILIES`, in dict insertion order. -/
def COLOR_FAMILIES : List (String × List String) :=
  [("모노", ["블랙", "화이트", "아이보리", "그레이", "차콜"]),
   ("뉴트럴", ["베이지", "브라운", "카멜", "크림"]),
   ("딥", ["네이비", "딥그린", "버건디"]),
   ("브라이트", ["레드", "옐로우", "오렌지", "블루", "핑크"]),
   ("파스텔", ["민트", "라벤더", "라일락", "소라"])]

/-- `recommendations._color_family`. -/
def _color_family (color : String) : String :=
  let c := pyStrip (color.replace " " "")
  if c = "" then "기타"
  else
    match COLOR_FAMILIES.find? (fun fp => fp.2.any (fun p => p.isPrefixOf c)) with
    | some fp => fp.1
    | none => "기타"

/-- `recommendations._style_alignment`.  Python set semantics are obtained by
deduplicating the normalised lists before intersecting / measuring. -/
def _style_alignment (item_tags preferences : List String) : ℚ :=
  let item_set := (_normalise_tags item_tags).dedup
  let pref_set := (_normalise_tags preferences).dedup
  if pref_set = [] then (if item_set = [] then 0.4 else 0.6)
  else ((item_set.inter pref_set).length : ℚ) / (pref_set.length : ℚ)

/-- `recommendations._season_alignment`. -/
def _season_alignment (item_seasons target_seasons : List String) : ℚ :=
  let seasons := (_normalise_tags item_seasons).dedup
  let seasons :=
    if "사계절" ∈ seasons then (seasons ++ ["봄", "여름", "가을", "겨울"]).dedup
    else seasons
  let target := (_normalise_tags target_seasons).dedup
  if target = [] then 0.5
  else if seasons.inter target ≠ [] then 1.0
  else 0.2

/-- `recommendations._color_alignment`: fraction of items in the dominant
colour family. -/
def _color_alignment (items : List Item) : ℚ :=
  let families := items.map (fun i => _color_family i.color)
  let counts := families.dedup.map (fun f => families.count f)
  let dominant := counts.foldl max 0
  (dominant : ℚ) / (max families.length 1 : ℚ)

/-- `np.mean(xs) if xs else 0`. -/
def listMean (l : List ℚ) : ℚ :=
  if l = [] then 0 else l.sum / (l.length : ℚ)

/-- `round(x, 3)`: round to three decimals (half up; see header note). -/
def round3 (q : ℚ) : ℚ := ((⌊q * 1000 + 1/2⌋ : ℤ) : ℚ) / 1000

/-- `recommendations._score_outfit`. -/
def _score_outfit (items : List Item) (profile : Profile) : ℚ :=
  let style_scores := items.map
    (fun i => _style_alignment i.style_tags profile.style_preferences)
  let season_scores := items.map
    (fun i => _season_alignment i.season profile.season)
  round3 (0.5 * listMean style_scores + 0.3 * _color_alignment items
    + 0.2 * listMean season_scores)

/-- `recommendations._inventory_by_category`. -/
def _inventory_by_category (inv : List Item) (category : String) : List Item :=
  inv.filter (fun i => i.category == category)

/-- Python `max(xs, key=f)` over a possibly empty list: the first element
with maximal key wins (`max` replaces the running best only on a strictly
greater key). -/
def pyMax (f : α → ℚ) : List α → Option α
  | [] => none
  | x :: xs => some (xs.foldl (fun best y => if f best < f y then y else best) x)

/-- `[a]` for `some a`, `[]` for `none`. -/
def optToList : Option α → List α
  | none => []
  | some a => [a]

/-- One outfit produced by `recommendations.outfit_suggestions` (the Python
code additionally wraps each of these into a display dict with a
`title`/`description` string; the `items`, `score` and `style_tags` payload
is carried over unchanged). -/
structure Combo where
  items : List Item
  score : ℚ
  style_tags : List String
deriving DecidableEq, Repr

/-- `sorted(set(chain.from_iterable(...)))` over the normalised style tags of
the outfit members. -/
def comboStyleTags (items : List Item) : List String :=
  List.insertionSort (fun a b => a ≤ b)
    ((items.flatMap (fun i => _normalise_tags i.style_tags)).dedup)

/-- One `top × bottom × shoe` combination of `outfit_suggestions`, with the
optional best outer layer (by style alignment) and best headwear (by season
alignment) appended. -/
def mkTopCombo (profile : Profile) (outers caps : List Item)
    (top bottom shoe : Item) : Combo :=
  let base := [top, bottom, shoe]
  let withOuter := base ++ optToList (pyMax
    (fun i => _style_alignment i.style_tags profile.style_preferences) outers)
  let candidate_items := withOuter ++ optToList (pyMax
    (fun i => _season_alignment i.season profile.season) caps)
  ⟨candidate_items, _score_outfit candidate_items profile,
    comboStyleTags candidate_items⟩

/-- One `dress × shoe` combination of `outfit_suggestions`, with the optional
best outer layer (chosen by *season* alignment in this branch) appended; no
headwear is appended in this branch. -/
def mkDressCombo (profile : Profile) (outers : List Item)
    (dress shoe : Item) : Combo :=
  let candidate_items := [dress, shoe] ++ optToList (pyMax
    (fun i => _season_alignment i.season profile.season) outers)
  ⟨candidate_items, _score_outfit candidate_items profile,
    comboStyleTags candidate_items⟩

/-- The `combos` list accumulated by `recommendations.outfit_suggestions`
before sorting and truncation. -/
def outfit_combos (inv : List Item) (profile : Profile) : List Combo :=
  let tops := _inventory_by_category inv "상의"
  let onepieces := _inventory_by_category inv "원피스"
  let skirts := _inventory_by_category inv "스커트"
  let bottoms := _inventory_by_category inv "바지" ++ skirts
  let shoes := _inventory_by_category inv "신발"
  let outers := _inventory_by_category inv "아우터"
  let caps := _inventory_by_category inv "모자"
  (if tops ≠ [] ∧ bottoms ≠ [] then
    tops.flatMap fun top => bottoms.flatMap fun bottom => shoes.map fun shoe =>
      mkTopCombo profile outers caps top bottom shoe
   else []) ++
  (if onepieces ≠ [] then
    onepieces.flatMap fun dress => shoes.map fun shoe =>
      mkDressCombo profile outers dress shoe
   else [])

/-- `recommendations.outfit_suggestions`: self-contained outfits from the
owned inventory, scored, sorted by score descending and truncated. -/
def outfit_suggestions (inv : List Item) (profile : Profile)
    (max_results : Nat := 6) : List Combo :=
  if inv = [] then []
  else if _inventory_by_category inv "신발" = [] then []
  else
    (List.insertionSort (fun a b => b.score ≤ a.score)
      (outfit_combos inv profile)).take max_results

/-- `recommendations._category_gap_score`. -/
def _category_gap_score (inv : List Item) (category : String) : ℚ :=
  let count := (inv.filter (fun i => i.category == category)).length
  if count = 0 then 1.0
  else if count = 1 then 0.7
  else if count = 2 then 0.4
  else 0.1

/-- `recommendations._budget_score`.  `if not budget_manwon` is Python
falsiness: both `None` and `0` yield the neutral `0.5`. -/
def _budget_score (price_krw : Int) (budget_manwon : Option Int) : ℚ :=
  match budget_manwon with
  | none => 0.5
  | some b =>
    if b = 0 then 0.5
    else
      let budget_krw : Int := b * 10000
      if (price_krw : ℚ) ≤ (budget_krw : ℚ) then 1.0
      else if (price_krw : ℚ) ≤ (budget_krw : ℚ) * 1.3 then 0.6
      else 0.2

/-- The `(style, season)` ranking key used by `_best_inventory_matches`. -/
def rankKey (profile : Profile) (i : Item) : ℚ × ℚ :=
  (_style_alignment i.style_tags profile.style_preferences,
   _season_alignment i.season profile.season)

/-- Strict lexicographic order on the ranking key pairs. -/
def pairLt (a b : ℚ × ℚ) : Prop := a.1 < b.1 ∨ (a.1 = b.1 ∧ a.2 < b.2)

instance : DecidablePred (fun ab : (ℚ × ℚ) × (ℚ × ℚ) => pairLt ab.1 ab.2) :=
  fun _ => by unfold pairLt; infer_instance

instance (a b : ℚ × ℚ) : Decidable (pairLt a b) := by
  unfold pairLt; infer_instance

/-- `recommendations._best_inventory_matches`: for each required category,
the first element of the candidates sorted by `(style, season)` descending;
categories without owned candidates are skipped (`continue`). -/
def _best_inventory_matches (inv : List Item)
    (category_requirements : List String) (profile : Profile) : List Item :=
  category_requirements.filterMap fun category =>
    match _inventory_by_category inv category with
    | [] => none
    | c :: cs =>
      (List.insertionSort
        (fun a b => ¬ pairLt (rankKey profile a) (rankKey profile b))
        (c :: cs)).head?

/-- The category requirements table of `recommendations._build_catalog_outfit`. -/
def requiredCategories (category : String) : List String :=
  if category = "상의" then ["바지", "신발"]
  else if category = "바지" then ["상의", "신발"]
  else if category = "신발" then ["상의", "바지"]
  else if category = "아우터" then ["상의", "바지", "신발"]
  else if category = "모자" then ["상의", "바지", "신발"]
  else ["상의", "바지", "신발"]

/-- `recommendations._build_catalog_outfit`: the candidate catalog item plus
the best supporting owned item per required category. -/
def _build_catalog_outfit (catalog_item : Item) (inv : List Item)
    (profile : Profile) : List Item :=
  catalog_item ::
    _best_inventory_matches inv (requiredCategories catalog_item.category) profile

/-! ## marketplace.py -/

/-- The deduplication identity key of `marketplace._deduplicate`:
`item.get("product_url") or item.get("source_id") or item.get("name")`. -/
def dedupKey (item : Item) : Option String :=
  pyOr item.product_url (pyOr item.source_id item.name)

/-- The `seen`-set loop of `marketplace._deduplicate`. -/
def dedupAux (seen : List (Option String)) : List Item → List Item
  | [] => []
  | item :: rest =>
    if dedupKey item ∈ seen then dedupAux seen rest
    else item :: dedupAux (dedupKey item :: seen) rest

/-- `marketplace._deduplicate`: keep the first occurrence per identity key. -/
def _deduplicate (items : List Item) : List Item := dedupAux [] items

/-- The outcome of each of the three catalog sources, as consumed by the
`try/except` blocks of `marketplace.load_catalog`: the item list on success,
the exception text on failure. -/
structure SourceOutcomes where
  staticRes : Except String (List Item)
  musinsaRes : Except String (List Item)
  kreamRes : Except String (List Item)

/-- The items a source contributed (none when it failed). -/
def sourceItems : Except String (List Item) → List Item
  | .ok l => l
  | .error _ => []

/-- Whether a source outcome is a failure. -/
def isFailure : Except String (List Item) → Bool
  | .ok _ => false
  | .error _ => true

/-- `marketplace.load_catalog` with `include_meta=True`: per-source failure
isolation (one human-readable error string per failed source), then
deduplication of the merged list.  Static items are appended first, then
Musinsa, then KREAM. -/
def load_catalog (include_static include_musinsa include_kream : Bool)
    (musinsa_limit kream_limit : Int) (oc : SourceOutcomes) :
    List Item × List String :=
  let s :=
    if include_static then
      match oc.staticRes with
      | .ok items => (items, ([] : List String))
      | .error exc => ([], ["정적 카탈로그 로드 실패: " ++ exc])
    else ([], [])
  let m :=
    if include_musinsa ∧ musinsa_limit > 0 then
      match oc.musinsaRes with
      | .ok items => (items, ([] : List String))
      | .error exc => ([], ["무신사 데이터 수집 실패: " ++ exc])
    else ([], [])
  let k :=
    if include_kream ∧ kream_limit > 0 then
      match oc.kreamRes with
      | .ok items => (items, ([] : List String))
      | .error exc => ([], ["크림 데이터 수집 실패: " ++ exc])
    else ([], [])
  (_deduplicate (s.1 ++ m.1 ++ k.1), s.2 ++ m.2 ++ k.2)

/-! ## wishlist_suggestions -/

/-- One scored wishlist candidate (the per-item record appended to
`scored_items` in `wishlist_suggestions`). -/
structure ScoredEntry where
  item : Item
  score : ℚ
  style_score : ℚ
  gap_score : ℚ
  season_score : ℚ
  budget_score : ℚ
deriving DecidableEq, Repr

/-- The per-item scoring step of `wishlist_suggestions` (loop body over the
catalog): note the budget input `int(item.get("price_krw", 0) or 0)`, which
turns an unknown (`None`) price into `0`. -/
def scoreEntry (inv : List Item) (profile : Profile) (item : Item) : ScoredEntry :=
  let style_score := _style_alignment item.style_tags profile.style_preferences
  let gap_score := _category_gap_score inv item.category
  let season_score := _season_alignment item.season profile.season
  let budget_score := _budget_score (item.price_krw.getD 0) profile.budget
  let total_score := 0.4 * style_score + 0.3 * gap_score
    + 0.2 * season_score + 0.1 * budget_score
  ⟨item, round3 total_score, style_score, gap_score, season_score, budget_score⟩

/-- `buckets.setdefault(category, []).append(entry)` on an insertion-ordered
dict, modelled as an association list. -/
def addToBucket : List (String × List ScoredEntry) → String → ScoredEntry →
    List (String × List ScoredEntry)
  | [], category, e => [(category, [e])]
  | (k, v) :: rest, category, e =>
    if k = category then (k, v ++ [e]) :: rest
    else (k, v) :: addToBucket rest category e

/-- The category buckets of `wishlist_suggestions` (`entry["item"].get("category", "기타")`;
the records modelled here always carry a category). -/
def bucketsOf (scored : List ScoredEntry) : List (String × List ScoredEntry) :=
  scored.foldl (fun bs e => addToBucket bs e.item.category e) []

/-- `source_counts[source] = source_counts.get(source, 0) + 1` on an
insertion-ordered dict. -/
def addCount : List (String × Nat) → String → List (String × Nat)
  | [], s => [(s, 1)]
  | (k, n) :: rest, s =>
    if k = s then (k, n + 1) :: rest else (k, n) :: addCount rest s

/-- The per-source item counts gathered by `wishlist_suggestions`. -/
def sourceCounts (catalog : List Item) : List (String × Nat) :=
  catalog.foldl (fun cs i => addCount cs (i.source.getD "static")) []

/-- `recommendations._build_reason`. -/
def _build_reason (entry : ScoredEntry) : String :=
  let reasons : List String :=
    (if entry.gap_score ≥ 0.7 then ["옷장에 부족한 카테고리"] else [])
    ++ (if entry.style_score ≥ 0.6 then ["선호 스타일과 잘 맞아요"] else [])
    ++ (if entry.season_score ≥ 0.6 then
          [String.intercalate ", " (_normalise_tags entry.item.season)
            ++ " 시즌 활용도 높음"]
        else [])
    ++ (if entry.budget_score ≥ 0.6 then ["예산 범위에 적합"] else [])
  let reasons := if reasons = [] then ["스타일 포인트를 더해줄 아이템"] else reasons
  String.intercalate " · " reasons

/-- One enriched recommendation entry of `wishlist_suggestions`. -/
structure RecEntry where
  name : Option String
  score : ℚ
  reason : String
  image_url : Option String
  product_url : Option String
  price_krw : Option Int
  style_tags : List String
  season : List String
  outfit_example : List Item
  source : String
deriving DecidableEq, Repr

/-- The enrichment step of `wishlist_suggestions` for one selected entry. -/
def mkRecEntry (inv : List Item) (profile : Profile) (entry : ScoredEntry) :
    RecEntry :=
  { name := entry.item.name
    score := entry.score
    reason := _build_reason entry
    image_url := entry.item.image_url
    product_url := entry.item.product_url
    price_krw := entry.item.price_krw
    style_tags := entry.item.style_tags
    season := entry.item.season
    outfit_example := _build_catalog_outfit entry.item inv profile
    source := entry.item.source.getD "static" }

/-- The `meta` diagnostic record returned by `wishlist_suggestions`. -/
structure FetchMeta where
  errors : List String
  source_counts : List (String × Nat)
  total_candidates : Nat
  total_selected : Nat
  per_category_cap : Int
deriving DecidableEq, Repr

/-- Python `l[:n]` (a negative `n` counts from the end). -/
def pySlice (n : Int) (l : List α) : List α :=
  if n < 0 then l.take ((l.length : Int) + n).toNat else l.take n.toNat

/-- The per-category cap of `wishlist_suggestions`:
`max(10, -(-limit_total // len(buckets)))` when unset and buckets exist
(`-(-a//b)` is ceiling division, `(a + b - 1) / b` on naturals for the
already-clamped `limit_total ≥ 1`), the clamped `limit_total` when unset and
no bucket exists. -/
def effectiveCap (per_category_cap : Option Int) (limit_total : Int)
    (bucketCount : Nat) : Int :=
  match per_category_cap with
  | some cap => cap
  | none =>
    if bucketCount ≠ 0 then
      max 10 (((limit_total.toNat + bucketCount - 1) / bucketCount : Nat) : Int)
    else limit_total

/-- The computation of `wishlist_suggestions` below the `load_catalog` call
(recommendations.py lines 297-368): scoring, bucketing, cap derivation,
per-bucket selection and the `meta` record.  `limit_total` here is the value
already clamped at line 280; `fetched` is the `(catalog, errors)` pair the
call would deliver. -/
def wishlist_compute (inv : List Item) (profile : Profile)
    (limit_total : Int) (per_category_cap : Option Int)
    (fetched : List Item × List String) :
    List (String × List RecEntry) × FetchMeta :=
  let catalog := fetched.1
  let errors := fetched.2
  let scored_items := catalog.map (scoreEntry inv profile)
  let source_counts := sourceCounts catalog
  let buckets := bucketsOf scored_items
  let cap := effectiveCap per_category_cap limit_total buckets.length
  let recommendations := buckets.map fun bucket =>
    (bucket.1,
      (pySlice cap
        (List.insertionSort (fun a b => b.score ≤ a.score) bucket.2)).map
        (mkRecEntry inv profile))
  let total_selected := (recommendations.map (fun r => r.2.length)).sum
  (recommendations,
   { errors := errors
     source_counts := source_counts
     total_candidates := scored_items.length
     total_selected := total_selected
     per_category_cap := cap })

/-- The exception text of the `TypeError` raised by the call at
recommendations.py line 294, which passes `refresh_static=` to
`marketplace.load_catalog` although that function (marketplace.py lines
45-55) declares no such keyword-only parameter and no `**kwargs`. -/
def refreshStaticTypeError : String :=
  "TypeError: load_catalog() got an unexpected keyword argument refresh_static"

/-- Python keyword binding for a call of `marketplace.load_catalog`:
supplying the unknown keyword `refresh_static` raises `TypeError` before the
function body runs; without it the call is the `load_catalog` computation. -/
def load_catalog_call (include_static include_musinsa include_kream : Bool)
    (musinsa_limit kream_limit : Int) (refresh_static : Option Bool)
    (oc : SourceOutcomes) : Except String (List Item × List String) :=
  match refresh_static with
  | some _ => .error refreshStaticTypeError
  | none => .ok (load_catalog include_static include_musinsa include_kream
      musinsa_limit kream_limit oc)

/-- `recommendations.wishlist_suggestions`.  The network fetch performed by
`marketplace.load_catalog` is I/O, so the per-source outcomes `oc` are an
explicit input.  `limit_total` is clamped to `max(int(limit_total), 1)` at
line 280 before any use.  The call at lines 285-295 always passes
`refresh_static=` (the keyword appears unconditionally in the call
expression), which `load_catalog` does not accept, so every run of the
Python function raises `TypeError` there and the continuation
(`wishlist_compute`) is dead code; a raising function is embedded as an
`Except`-valued one. -/
def wishlist_suggestions (inv : List Item) (profile : Profile)
    (limit_total : Int) (per_category_cap : Option Int)
    (include_static include_musinsa include_kream : Bool)
    (musinsa_limit kream_limit : Option Int)
    (refresh_static : Bool) (oc : SourceOutcomes) :
    Except String (List (String × List RecEntry) × FetchMeta) :=
  let L : Int := max limit_total 1
  let musinsa_fetch_limit := musinsa_limit.getD L
  let kream_fetch_limit := kream_limit.getD L
  match load_catalog_call include_static include_musinsa include_kream
      musinsa_fetch_limit kream_fetch_limit (some refresh_static) oc with
  | .error e => .error e
  | .ok fetched =>
    .ok (wishlist_compute inv profile L per_category_cap fetched)

/-! ## General-purpose lemmas -/

theorem head?_mem {α : Type _} {l : List α} {x : α} (h : l.head? = some x) :
    x ∈ l := by
  cases l with
  | nil => simp at h
  | cons a l => injection h with h; exact h ▸ List.mem_cons_self a l

theorem optToList_length_le (o : Option α) : (optToList o).length ≤ 1 := by
  cases o <;> simp [optToList]

theorem pySlice_sublist (n : Int) (l : List α) : (pySlice n l).Sublist l := by
  unfold pySlice; split <;> exact List.take_sublist _ _

theorem length_pySlice_le (n : Int) (l : List α) (hn : 0 ≤ n) :
    ((pySlice n l).length : Int) ≤ n := by
  unfold pySlice
  rw [if_neg (not_lt.mpr hn)]
  have h : ((l.take n.toNat).length : Int) ≤ (n.toNat : Int) := by
    exact_mod_cast List.length_take_le n.toNat l
  rwa [Int.toNat_of_nonneg hn] at h

/-- The result of the running-maximum fold of Python `max(key=f)`: the list
splits around the result, everything before it has a strictly smaller key
(so the first maximum wins) and everything after it a key that is at most
its own. -/
theorem foldlMax_split (f : α → ℚ) :
    ∀ (xs : List α) (a : α),
      ∃ l1 l2,
        a :: xs =
          l1 ++ (xs.foldl (fun best y => if f best < f y then y else best) a) :: l2 ∧
        (∀ y ∈ l1, f y < f (xs.foldl (fun best y => if f best < f y then y else best) a)) ∧
        (∀ y ∈ l2, f y ≤ f (xs.foldl (fun best y => if f best < f y then y else best) a)) := by
  intro xs
  induction xs with
  | nil => exact fun a => ⟨[], [], rfl, by simp, by simp⟩
  | cons y ys ih =>
    intro a
    by_cases h : f a < f y
    · have e : (y :: ys).foldl (fun best z => if f best < f z then z else best) a =
          ys.foldl (fun best z => if f best < f z then z else best) y := by
        simp [List.foldl, if_pos h]
      obtain ⟨l1, l2, he, h1, h2⟩ := ih y
      rw [e]
      have hyr : f y ≤ f (ys.foldl (fun best z => if f best < f z then z else best) y) := by
        cases l1 with
        | nil =>
          have hy : y = ys.foldl (fun best z => if f best < f z then z else best) y := by
            simpa using congrArg (fun l => l.head?) he
          exact hy ▸ le_refl (f y)
        | cons z l1' =>
          have hz : y = z := by simpa using congrArg (fun l => l.head?) he
          have := h1 z (List.mem_cons_self z l1')
          rw [← hz] at this
          exact this.le
      exact ⟨a :: l1, l2, by rw [List.cons_append, he],
        fun z hz => by
          rcases List.mem_cons.mp hz with rfl | hz
          · exact lt_of_lt_of_le h hyr
          · exact h1 z hz,
        h2⟩
    · have e : (y :: ys).foldl (fun best z => if f best < f z then z else best) a =
          ys.foldl (fun best z => if f best < f z then z else best) a := by
        simp [List.foldl, if_neg h]
      obtain ⟨l1, l2, he, h1, h2⟩ := ih a
      rw [e]
      cases l1 with
      | nil =>
        have hra : a = ys.foldl (fun best z => if f best < f z then z else best) a := by
          simpa using congrArg (fun l => l.head?) he
        have hys : ys = l2 := by
          have := congrArg (fun l => l.tail) he
          simpa using this
        refine ⟨[], y :: l2, ?_, by simp, ?_⟩
        · rw [List.nil_append] at he ⊢
          rw [← hra] at he ⊢
          rw [← hys]
        · intro z hz
          rcases List.mem_cons.mp hz with rfl | hz
          · exact hra ▸ not_lt.mp h
          · exact h2 z hz
      | cons z l1' =>
        have hz : a = z := by simpa using congrArg (fun l => l.head?) he
        subst hz
        have hys : ys = l1' ++ (ys.foldl (fun best z => if f best < f z then z else best) a) :: l2 := by
          have := congrArg (fun l => l.tail) he
          simpa using this
        have har : f a < f (ys.foldl (fun best z => if f best < f z then z else best) a) :=
          h1 a (List.mem_cons_self a l1')
        refine ⟨a :: y :: l1', l2, ?_, ?_, h2⟩
        · rw [List.cons_append, List.cons_append, ← hys]
        · intro w hw
          rcases List.mem_cons.mp hw with rfl | hw
          · exact har
          · rcases List.mem_cons.mp hw with rfl | hw
            · exact lt_of_le_of_lt (not_lt.mp h) har
            · exact h1 w (List.mem_cons_of_mem _ hw)

/-- Python `max(l, key=f)` returns the first element attaining the maximum
key: everything strictly earlier has a strictly smaller key, everything
later has a key ≤ the winner's. -/
theorem pyMax_split {f : α → ℚ} {l : List α} {x : α} (h : pyMax f l = some x) :
    ∃ l1 l2, l = l1 ++ x :: l2 ∧ (∀ y ∈ l1, f y < f x) ∧ (∀ y ∈ l2, f y ≤ f x) := by
  cases l with
  | nil => simp [pyMax] at h
  | cons a xs =>
    have hx : xs.foldl (fun best y => if f best < f y then y else best) a = x := by
      simpa [pyMax] using h
    obtain ⟨l1, l2, he, h1, h2⟩ := foldlMax_split f xs a
    exact ⟨l1, l2, by rw [← hx]; exact he, fun y hy => hx ▸ h1 y hy,
      fun y hy => hx ▸ h2 y hy⟩

/-! ## Deduplication lemmas -/

/-- The `seen` set after the loop of `_deduplicate` has processed a prefix. -/
def seenPlus (seen : List (Option String)) : List Item → List (Option String)
  | [] => seen
  | i :: rest =>
    if dedupKey i ∈ seen then seenPlus seen rest
    else seenPlus (dedupKey i :: seen) rest

theorem dedupAux_cons_mem {seen : List (Option String)} {i : Item}
    (l : List Item) (h : dedupKey i ∈ seen) :
    dedupAux seen (i :: l) = dedupAux seen l := by
  simp only [dedupAux]; rw [if_pos h]

theorem dedupAux_cons_not_mem {seen : List (Option String)} {i : Item}
    (l : List Item) (h : dedupKey i ∉ seen) :
    dedupAux seen (i :: l) = i :: dedupAux (dedupKey i :: seen) l := by
  simp only [dedupAux]; rw [if_neg h]

theorem seenPlus_cons_mem {seen : List (Option String)} {i : Item}
    (l : List Item) (h : dedupKey i ∈ seen) :
    seenPlus seen (i :: l) = seenPlus seen l := by
  simp only [seenPlus]; rw [if_pos h]

theorem seenPlus_cons_not_mem {seen : List (Option String)} {i : Item}
    (l : List Item) (h : dedupKey i ∉ seen) :
    seenPlus seen (i :: l) = seenPlus (dedupKey i :: seen) l := by
  simp only [seenPlus]; rw [if_neg h]

theorem dedupAux_sublist : ∀ (l : List Item) (seen : List (Option String)),
    (dedupAux seen l).Sublist l := by
  intro l
  induction l with
  | nil => intro seen; simp [dedupAux]
  | cons i rest ih =>
    intro seen
    unfold dedupAux
    split
    · exact (ih seen).cons i
    · exact (ih (dedupKey i :: seen)).cons₂ i

theorem mem_dedupAux_not_seen : ∀ (l : List Item) (seen : List (Option String))
    (x : Item), x ∈ dedupAux seen l → dedupKey x ∉ seen := by
  intro l
  induction l with
  | nil => intro seen x hx; simp [dedupAux] at hx
  | cons i rest ih =>
    intro seen x hx
    unfold dedupAux at hx
    split at hx
    · exact ih seen x hx
    · rcases List.mem_cons.mp hx with rfl | hx
      · assumption
      · have := ih _ x hx
        exact fun hmem => this (List.mem_cons_of_mem _ hmem)

theorem dedupAux_pairwise : ∀ (l : List Item) (seen : List (Option String)),
    (dedupAux seen l).Pairwise (fun a b => dedupKey a ≠ dedupKey b) := by
  intro l
  induction l with
  | nil => intro seen; simp [dedupAux]
  | cons i rest ih =>
    intro seen
    unfold dedupAux
    split
    · exact ih seen
    · refine List.Pairwise.cons ?_ (ih (dedupKey i :: seen))
      intro b hb
      have := mem_dedupAux_not_seen _ _ _ hb
      exact fun he => this (he ▸ List.mem_cons_self _ _)

theorem dedupAux_eq_self : ∀ (l : List Item) (seen : List (Option String)),
    l.Pairwise (fun a b => dedupKey a ≠ dedupKey b) →
    (∀ x ∈ l, dedupKey x ∉ seen) → dedupAux seen l = l := by
  intro l
  induction l with
  | nil => intro seen _ _; rfl
  | cons i rest ih =>
    intro seen hp hs
    unfold dedupAux
    rw [if_neg (hs i (List.mem_cons_self _ _))]
    congr 1
    refine ih _ hp.of_cons ?_
    intro x hx
    intro hmem
    rcases List.mem_cons.mp hmem with he | hmem
    · exact (List.pairwise_cons.mp hp).1 x hx he.symm
    · exact hs x (List.mem_cons_of_mem _ hx) hmem

theorem dedupAux_complete : ∀ (l : List Item) (seen : List (Option String))
    (y : Item), y ∈ l → dedupKey y ∉ seen →
    ∃ x ∈ dedupAux seen l, dedupKey x = dedupKey y := by
  intro l
  induction l with
  | nil => intro seen y hy; simp at hy
  | cons i rest ih =>
    intro seen y hy hns
    by_cases hmem : dedupKey i ∈ seen
    · rw [dedupAux_cons_mem rest hmem]
      rcases List.mem_cons.mp hy with rfl | hy
      · exact absurd hmem hns
      · exact ih seen y hy hns
    · rw [dedupAux_cons_not_mem rest hmem]
      rcases List.mem_cons.mp hy with rfl | hy
      · exact ⟨_, List.mem_cons_self _ _, rfl⟩
      · by_cases hk : dedupKey y = dedupKey i
        · exact ⟨i, List.mem_cons_self _ _, hk.symm⟩
        · obtain ⟨x, hx, he⟩ := ih (dedupKey i :: seen) y hy
            (by simp [hk, hns])
          exact ⟨x, List.mem_cons_of_mem _ hx, he⟩

theorem dedupAux_append : ∀ (S : List Item) (seen : List (Option String))
    (E : List Item),
    dedupAux seen (S ++ E) = dedupAux seen S ++ dedupAux (seenPlus seen S) E := by
  intro S
  induction S with
  | nil => intro seen E; rfl
  | cons i S' ih =>
    intro seen E
    rw [List.cons_append]
    by_cases hmem : dedupKey i ∈ seen
    · rw [dedupAux_cons_mem _ hmem, dedupAux_cons_mem _ hmem,
        seenPlus_cons_mem _ hmem, ih seen E]
    · rw [dedupAux_cons_not_mem _ hmem, dedupAux_cons_not_mem _ hmem,
        seenPlus_cons_not_mem _ hmem, ih (dedupKey i :: seen) E,
        List.cons_append]

theorem subset_seenPlus : ∀ (S : List Item) (seen : List (Option String))
    (k : Option String), k ∈ seen → k ∈ seenPlus seen S := by
  intro S
  induction S with
  | nil => intro seen k hk; exact hk
  | cons i S' ih =>
    intro seen k hk
    by_cases hmem : dedupKey i ∈ seen
    · rw [seenPlus_cons_mem _ hmem]; exact ih seen k hk
    · rw [seenPlus_cons_not_mem _ hmem]
      exact ih _ k (List.mem_cons_of_mem _ hk)

theorem mem_key_seenPlus : ∀ (S : List Item) (seen : List (Option String))
    (y : Item), y ∈ S → dedupKey y ∈ seenPlus seen S := by
  intro S
  induction S with
  | nil => intro seen y hy; simp at hy
  | cons i S' ih =>
    intro seen y hy
    by_cases hmem : dedupKey i ∈ seen
    · rw [seenPlus_cons_mem _ hmem]
      rcases List.mem_cons.mp hy with rfl | hy
      · exact subset_seenPlus S' seen _ hmem
      · exact ih seen y hy
    · rw [seenPlus_cons_not_mem _ hmem]
      rcases List.mem_cons.mp hy with rfl | hy
      · exact subset_seenPlus S' _ _ (List.mem_cons_self _ _)
      · exact ih _ y hy

/-! ## Ceiling-division lemma -/

theorem natCeilDiv_eq_ceil (a b : ℕ) (hb : b ≠ 0) :
    (((a + b - 1) / b : ℕ) : ℤ) = ⌈(a : ℚ) / (b : ℚ)⌉ := by
  have hb0 : 0 < b := Nat.pos_of_ne_zero hb
  have hmod := Nat.div_add_mod (a + b - 1) b
  have hr : (a + b - 1) % b < b := Nat.mod_lt _ hb0
  set q : ℕ := (a + b - 1) / b with hq
  have h1 : a ≤ b * q := by omega
  have h2 : b * q < a + b := by omega
  have hbq : (0 : ℚ) < (b : ℚ) := by exact_mod_cast hb0
  symm
  rw [Int.ceil_eq_iff]
  constructor
  · rw [lt_div_iff₀ hbq]
    push_cast
    have : (b : ℚ) * q < a + b := by exact_mod_cast h2
    nlinarith
  · rw [div_le_iff₀ hbq]
    push_cast
    have : (a : ℚ) ≤ b * q := by exact_mod_cast h1
    nlinarith

/-! ## Outfit composer lemmas -/

/-- Every outfit returned by `outfit_suggestions` is one of the
`top × bottom × shoe` combinations or one of the `dress × shoe`
combinations. -/
theorem mem_outfit_suggestions_structure {inv : List Item} {p : Profile}
    {n : Nat} {o : Combo} (h : o ∈ outfit_suggestions inv p n) :
    (∃ t b s, t ∈ _inventory_by_category inv "상의" ∧
      b ∈ _inventory_by_category inv "바지" ++ _inventory_by_category inv "스커트" ∧
      s ∈ _inventory_by_category inv "신발" ∧
      o = mkTopCombo p (_inventory_by_category inv "아우터")
        (_inventory_by_category inv "모자") t b s) ∨
    (∃ d s, d ∈ _inventory_by_category inv "원피스" ∧
      s ∈ _inventory_by_category inv "신발" ∧
      o = mkDressCombo p (_inventory_by_category inv "아우터") d s) := by
  unfold outfit_suggestions at h
  split at h
  · simp at h
  · split at h
    · simp at h
    · have h1 : o ∈ List.insertionSort (fun a b => b.score ≤ a.score)
          (outfit_combos inv p) := (List.take_sublist _ _).subset h
      have h2 : o ∈ outfit_combos inv p :=
        (List.perm_insertionSort _ _).mem_iff.mp h1
      unfold outfit_combos at h2
      rcases List.mem_append.mp h2 with h3 | h3
      · left
        split at h3
        · obtain ⟨t, ht, h4⟩ := List.mem_flatMap.mp h3
          obtain ⟨b, hb, h5⟩ := List.mem_flatMap.mp h4
          obtain ⟨s, hs, h6⟩ := List.mem_map.mp h5
          exact ⟨t, b, s, ht, hb, hs, h6.symm⟩
        · simp at h3
      · right
        split at h3
        · obtain ⟨d, hd, h4⟩ := List.mem_flatMap.mp h3
          obtain ⟨s, hs, h5⟩ := List.mem_map.mp h4
          exact ⟨d, s, hd, hs, h5.symm⟩
        · simp at h3

theorem mkTopCombo_items (p : Profile) (outers caps : List Item)
    (t b s : Item) :
    (mkTopCombo p outers caps t b s).items =
      [t, b, s]
        ++ optToList (pyMax
          (fun i => _style_alignment i.style_tags p.style_preferences) outers)
        ++ optToList (pyMax
          (fun i => _season_alignment i.season p.season) caps) := rfl

theorem mkDressCombo_items (p : Profile) (outers : List Item) (d s : Item) :
    (mkDressCombo p outers d s).items =
      [d, s] ++ optToList (pyMax
        (fun i => _season_alignment i.season p.season) outers) := rfl

/-- Every supporting item picked by `_best_inventory_matches` is an owned
inventory item. -/
theorem mem_best_inventory_matches {inv : List Item} {reqs : List String}
    {p : Profile} {x : Item} (h : x ∈ _best_inventory_matches inv reqs p) :
    x ∈ inv := by
  unfold _best_inventory_matches at h
  obtain ⟨c, _, hx⟩ := List.mem_filterMap.mp h
  cases hEq : _inventory_by_category inv c with
  | nil => rw [hEq] at hx; simp at hx
  | cons c0 cs =>
    rw [hEq] at hx
    have hx' : (List.insertionSort
        (fun a b => ¬ pairLt (rankKey p a) (rankKey p b)) (c0 :: cs)).head?
          = some x := hx
    have hmem : x ∈ c0 :: cs :=
      (List.perm_insertionSort _ _).mem_iff.mp (head?_mem hx')
    rw [← hEq] at hmem
    unfold _inventory_by_category at hmem
    exact (List.mem_filter.mp hmem).1

/-- `_best_inventory_matches` contributes exactly one item per required
category that has at least one owned candidate. -/
theorem length_best_inventory_matches (inv : List Item) (reqs : List String)
    (p : Profile) :
    (_best_inventory_matches inv reqs p).length =
      (reqs.filter (fun c => !(_inventory_by_category inv c).isEmpty)).length := by
  induction reqs with
  | nil => rfl
  | cons c cs ih =>
    unfold _best_inventory_matches at ih ⊢
    rw [List.filterMap_cons, List.filter_cons]
    cases hEq : _inventory_by_category inv c with
    | nil => simp only [hEq]; simpa using ih
    | cons c0 cs' =>
      have hne : List.insertionSort
          (fun a b => ¬ pairLt (rankKey p a) (rankKey p b)) (c0 :: cs') ≠ [] := by
        intro he
        have hlen := (List.perm_insertionSort
          (fun a b => ¬ pairLt (rankKey p a) (rankKey p b)) (c0 :: cs')).length_eq
        rw [he] at hlen
        simp at hlen
      simp only [hEq, List.head?_eq_head hne]
      simpa using ih

/-! ## wishlist projections -/

theorem wishlist_compute_fst (inv : List Item) (p : Profile) (limit : Int)
    (pcc : Option Int) (fetched : List Item × List String) :
    (wishlist_compute inv p limit pcc fetched).1 =
      (bucketsOf (fetched.1.map (scoreEntry inv p))).map
        (fun bucket =>
          (bucket.1,
            (pySlice
              (effectiveCap pcc limit
                (bucketsOf (fetched.1.map (scoreEntry inv p))).length)
              (List.insertionSort (fun a b => b.score ≤ a.score) bucket.2)).map
              (mkRecEntry inv p))) := rfl

theorem wishlist_compute_cap (inv : List Item) (p : Profile) (limit : Int)
    (pcc : Option Int) (fetched : List Item × List String) :
    (wishlist_compute inv p limit pcc fetched).2.per_category_cap =
      effectiveCap pcc limit
        (bucketsOf (fetched.1.map (scoreEntry inv p))).length := rfl

/-- Every call of the embedded `wishlist_suggestions` delivers the
`TypeError` of the unknown `refresh_static` keyword: the function never
reaches its scoring, bucketing, capping or selection code. -/
theorem wishlist_suggestions_typeerror (inv : List Item) (p : Profile)
    (limit : Int) (pcc : Option Int) (incS incM incK : Bool)
    (ml kl : Option Int) (rs : Bool) (oc : SourceOutcomes) :
    wishlist_suggestions inv p limit pcc incS incM incK ml kl rs oc =
      .error refreshStaticTypeError := rfl

/-- The unset-cap formula of `wishlist_compute` is the spec's
`max(10, ceil(limit_total / bucket_count))`, stated with a true mathematical
ceiling (and with the raw, unclamped `limit_total`: for `limit_total ≤ 0`
both sides collapse to 10). -/
theorem effectiveCap_none_eq (limit : Int) (bc : Nat) (hbc : bc ≠ 0) :
    effectiveCap none (max limit 1) bc = max 10 ⌈(limit : ℚ) / (bc : ℚ)⌉ := by
  have hbq : (0 : ℚ) < (bc : ℚ) := by
    exact_mod_cast Nat.pos_of_ne_zero hbc
  simp only [effectiveCap]
  rw [if_pos hbc]
  rcases le_or_lt 1 limit with hl | hl
  · rw [max_eq_left hl, natCeilDiv_eq_ceil _ _ hbc]
    have hcast : ((limit.toNat : ℕ) : ℚ) = (limit : ℚ) := by
      have h := Int.toNat_of_nonneg (show (0:ℤ) ≤ limit by omega)
      exact_mod_cast congrArg (fun z : ℤ => (z : ℚ)) h
    rw [hcast]
  · have hl0 : limit ≤ 0 := by omega
    rw [max_eq_right hl.le]
    have h1 : ((1 : Int).toNat + bc - 1) / bc = 1 := by
      have he : (1 : Int).toNat + bc - 1 = bc := by
        simp [Int.toNat_one]
      rw [he, Nat.div_self (Nat.pos_of_ne_zero hbc)]
    rw [h1]
    have hc : ⌈(limit : ℚ) / (bc : ℚ)⌉ ≤ 0 := by
      rw [Int.ceil_le]
      push_cast
      apply div_nonpos_of_nonpos_of_nonneg
      · exact_mod_cast hl0
      · exact hbq.le
    have h10 : max (10 : ℤ) ((1 : ℕ) : ℤ) = 10 := by norm_num
    rw [h10]
    omega

/-! ## Claim C8 -/

/-- C8: for every inventory whose footwear (신발) category is empty —
including the empty inventory — and for every profile and `max_results`,
`outfit_suggestions` returns the empty list, regardless of how many items
the inventory holds in other categories. -/
theorem C8_no_footwear_no_outfits (inv : List Item) (p : Profile) (n : Nat)
    (h : _inventory_by_category inv "신발" = []) :
    outfit_suggestions inv p n = [] := by
  unfold outfit_suggestions
  by_cases hinv : inv = []
  · rw [if_pos hinv]
  · rw [if_neg hinv, if_pos h]

/-- Witness item for C8: a non-empty inventory with no footwear. -/
def c8Top : Item := { name := some "화이트 셔츠", category := "상의" }

/-- C8 witness: a concrete non-empty inventory without footwear yields no
outfit. -/
theorem C8_witness :
    _inventory_by_category [c8Top] "신발" = [] ∧
    outfit_suggestions [c8Top] {} 6 = [] :=
  ⟨by decide, C8_no_footwear_no_outfits [c8Top] {} 6 (by decide)⟩

/-! ## Claim C9 -/

/-- C9: for every catalog item, inventory (including the empty inventory)
and profile, `_build_catalog_outfit` never fails and returns a non-empty
list whose first element is the candidate itself, followed only by
supporting owned items, with exactly one supporting item per required
category that has at least one owned candidate (required categories without
owned items are silently omitted). -/
theorem C9_catalog_outfit_total (ci : Item) (inv : List Item) (p : Profile) :
    _build_catalog_outfit ci inv p ≠ [] ∧
    (_build_catalog_outfit ci inv p).head? = some ci ∧
    (∀ x ∈ (_build_catalog_outfit ci inv p).tail, x ∈ inv) ∧
    (_build_catalog_outfit ci inv p).tail.length =
      ((requiredCategories ci.category).filter
        (fun c => !(_inventory_by_category inv c).isEmpty)).length := by
  refine ⟨by simp [_build_catalog_outfit], rfl, ?_, ?_⟩
  · intro x hx
    exact mem_best_inventory_matches
      (show x ∈ _best_inventory_matches inv (requiredCategories ci.category) p from hx)
  · exact length_best_inventory_matches inv (requiredCategories ci.category) p

/-- Witness catalog candidate for C9. -/
def c9Cand : Item := { name := some "니트", category := "상의" }

/-- Witness inventory for C9: owns one pair of trousers, no footwear. -/
def c9Pants : Item := { name := some "슬랙스", category := "바지" }

/-- C9 witness: with a one-trouser wardrobe the completion is the candidate
plus that trouser; the missing footwear category is silently omitted. -/
theorem C9_witness :
    _build_catalog_outfit c9Cand [c9Pants] {} ≠ [] ∧
    (_build_catalog_outfit c9Cand [c9Pants] {}).head? = some c9Cand ∧
    (∀ x ∈ (_build_catalog_outfit c9Cand [c9Pants] {}).tail, x ∈ [c9Pants]) ∧
    (_build_catalog_outfit c9Cand [c9Pants] {}).tail.length =
      ((requiredCategories c9Cand.category).filter
        (fun c => !(_inventory_by_category [c9Pants] c).isEmpty)).length :=
  C9_catalog_outfit_total c9Cand [c9Pants] {}

/-! ## Claim C5 -/

/-- C5: the composite wishlist candidate score is
`round3 (0.4·style + 0.3·gap + 0.2·season + 0.1·budget)`, and it is a
deterministic pure function of the item's style tags, season tags, category
and price together with the profile and inventory snapshot: two items that
agree on those fields (whatever their name, image, URL, identifiers or
provenance tag) receive the same composite score. -/
theorem C5_composite_score (inv : List Item) (p : Profile) (i j : Item)
    (hst : i.style_tags = j.style_tags) (hse : i.season = j.season)
    (hc : i.category = j.category) (hp : i.price_krw = j.price_krw) :
    (scoreEntry inv p i).score =
      round3 (0.4 * _style_alignment i.style_tags p.style_preferences
        + 0.3 * _category_gap_score inv i.category
        + 0.2 * _season_alignment i.season p.season
        + 0.1 * _budget_score (i.price_krw.getD 0) p.budget) ∧
    (scoreEntry inv p i).score = (scoreEntry inv p j).score := by
  constructor
  · rfl
  · simp only [scoreEntry, hst, hse, hc, hp]

/-- Witness items for C5: identical scoring inputs, different display
fields. -/
def c5A : Item :=
  { name := some "셔츠A", category := "상의", style_tags := ["미니멀"],
    season := ["봄"], price_krw := some 39000, source := some "static" }

/-- Second witness item for C5 (same scoring inputs as `c5A`). -/
def c5B : Item :=
  { name := some "셔츠B", category := "상의", style_tags := ["미니멀"],
    season := ["봄"], price_krw := some 39000, source := some "musinsa",
    image_url := some "https://example.com/b.jpg" }

/-- C5 witness: the two witness items receive the same composite score and
the score matches the weighted-sum formula. -/
theorem C5_witness :
    (scoreEntry [] { budget := some 5 } c5A).score =
      round3 (0.4 * _style_alignment c5A.style_tags
          ({ budget := some 5 } : Profile).style_preferences
        + 0.3 * _category_gap_score [] c5A.category
        + 0.2 * _season_alignment c5A.season ({ budget := some 5 } : Profile).season
        + 0.1 * _budget_score (c5A.price_krw.getD 0)
            ({ budget := some 5 } : Profile).budget) ∧
    (scoreEntry [] { budget := some 5 } c5A).score =
      (scoreEntry [] { budget := some 5 } c5B).score :=
  C5_composite_score [] { budget := some 5 } c5A c5B
    (by decide) (by decide) (by decide) (by decide)

/-! ## Claim C3 -/

/-- C3: aggregator deduplication is idempotent, never reorders surviving
items (the result is a sublist of the input), keeps a representative of
every identity key (`product_url` → `source_id` → `name`), keeps at most
one item per key, and keeps the first occurrence: an item surviving from a
merged `static ++ external` list whose key already occurs among the static
items is itself a static item. -/
theorem C3_dedup_properties :
    (∀ L : List Item, _deduplicate (_deduplicate L) = _deduplicate L) ∧
    (∀ L : List Item, (_deduplicate L).Sublist L) ∧
    (∀ (L : List Item) (y : Item), y ∈ L →
      ∃ x ∈ _deduplicate L, dedupKey x = dedupKey y) ∧
    (∀ L : List Item,
      (_deduplicate L).Pairwise (fun a b => dedupKey a ≠ dedupKey b)) ∧
    (∀ (S E : List Item) (x y : Item), x ∈ _deduplicate (S ++ E) → y ∈ S →
      dedupKey y = dedupKey x → x ∈ S) := by
  refine ⟨?_, ?_, ?_, ?_, ?_⟩
  · intro L
    exact dedupAux_eq_self _ [] (dedupAux_pairwise L []) (by simp)
  · intro L
    exact dedupAux_sublist L []
  · intro L y hy
    exact dedupAux_complete L [] y hy (by simp)
  · intro L
    exact dedupAux_pairwise L []
  · intro S E x y hx hy hk
    unfold _deduplicate at hx
    rw [dedupAux_append] at hx
    rcases List.mem_append.mp hx with h | h
    · exact (dedupAux_sublist S []).subset h
    · exact absurd (hk ▸ mem_key_seenPlus S [] y hy)
        (mem_dedupAux_not_seen _ _ _ h)

/-- Witness items for C3: a static entry and an external entry sharing the
same identity key (same name, no URL and no source id). -/
def c3Static : Item := { name := some "코트", source := some "static" }

/-- External witness item for C3 with the same identity key as `c3Static`. -/
def c3Ext : Item :=
  { name := some "코트", source := some "musinsa", price_krw := some 99000 }

/-- C3 witness: on a concrete static/external merge with a key tie the
surviving item is the static one, and a representative of the duplicated
key survives. -/
theorem C3_witness :
    (∃ x ∈ _deduplicate [c3Static, c3Ext], dedupKey x = dedupKey c3Ext) ∧
    (∀ x ∈ _deduplicate ([c3Static] ++ [c3Ext]),
      dedupKey c3Static = dedupKey x → x ∈ [c3Static]) :=
  ⟨C3_dedup_properties.2.2.1 [c3Static, c3Ext] c3Ext (by decide),
   fun x hx hk => C3_dedup_properties.2.2.2.2 [c3Static] [c3Ext] x c3Static
     hx (by decide) hk⟩

/-! ## Claim C2 -/

/-- The exception text of a failed source (empty for a succeeding one). -/
def errText : Except String (List Item) → String
  | .ok _ => ""
  | .error e => e

/-- Closed form of `load_catalog`: the deduplicated concatenation of the
enabled succeeding sources' items, plus one tagged error string per enabled
failing source. -/
theorem load_catalog_eq (incS incM incK : Bool) (ml kl : Int)
    (oc : SourceOutcomes) :
    load_catalog incS incM incK ml kl oc =
      (_deduplicate ((if incS then sourceItems oc.staticRes else []) ++
          (if incM ∧ ml > 0 then sourceItems oc.musinsaRes else []) ++
          (if incK ∧ kl > 0 then sourceItems oc.kreamRes else [])),
        (if incS ∧ isFailure oc.staticRes then
          ["정적 카탈로그 로드 실패: " ++ errText oc.staticRes] else []) ++
        (if (incM ∧ ml > 0) ∧ isFailure oc.musinsaRes then
          ["무신사 데이터 수집 실패: " ++ errText oc.musinsaRes] else []) ++
        (if (incK ∧ kl > 0) ∧ isFailure oc.kreamRes then
          ["크림 데이터 수집 실패: " ++ errText oc.kreamRes] else [])) := by
  rcases oc with ⟨s, m, k⟩
  cases s <;> cases m <;> cases k <;>
    simp only [load_catalog, sourceItems, isFailure, errText, and_true,
      and_false, true_and, false_and, ite_true, ite_false] <;>
      split_ifs <;> simp_all

/-- The items of the enabled, succeeding sources, in the append order of
`load_catalog` (static, then Musinsa, then KREAM, the external ones gated by
a positive fetch limit). -/
def enabledSourceItems (incS incM incK : Bool) (ml kl : Int)
    (oc : SourceOutcomes) : List Item :=
  (if incS then sourceItems oc.staticRes else []) ++
  (if incM ∧ ml > 0 then sourceItems oc.musinsaRes else []) ++
  (if incK ∧ kl > 0 then sourceItems oc.kreamRes else [])

/-- The number of enabled sources whose fetch failed. -/
def failedSourceCount (incS incM incK : Bool) (ml kl : Int)
    (oc : SourceOutcomes) : Nat :=
  (if incS ∧ isFailure oc.staticRes then 1 else 0) +
  (if (incM ∧ ml > 0) ∧ isFailure oc.musinsaRes then 1 else 0) +
  (if (incK ∧ kl > 0) ∧ isFailure oc.kreamRes then 1 else 0)

/-- Witness items for the C2 scenario: five distinct KREAM items. -/
def c2Items : List Item :=
  [{ name := some "i1" }, { name := some "i2" }, { name := some "i3" },
   { name := some "i4" }, { name := some "i5" }]

/-- The C2 scenario outcomes: Musinsa raises a connection failure, KREAM
yields five items, the static catalog is disabled. -/
def c2Outcomes : SourceOutcomes :=
  ⟨.ok [], .error "Connection refused", .ok c2Items⟩

/-- C2: `load_catalog` (with `include_meta`) is a total function of the
per-source outcomes — no single source failure escapes it — and for every
combination of enabled sources it returns exactly one error string per
enabled failing source; when the succeeding sources' items carry pairwise
distinct identity keys, every one of their items is returned.  In the
concrete two-source scenario (one connection failure, one source with 5
items) the result is exactly those 5 items plus exactly the one error
string naming the failing source. -/
theorem C2_partial_failure_isolation :
    (∀ (incS incM incK : Bool) (ml kl : Int) (oc : SourceOutcomes),
      (load_catalog incS incM incK ml kl oc).2.length =
        failedSourceCount incS incM incK ml kl oc) ∧
    (∀ (incS incM incK : Bool) (ml kl : Int) (oc : SourceOutcomes),
      ((enabledSourceItems incS incM incK ml kl oc).Pairwise
        (fun a b => dedupKey a ≠ dedupKey b)) →
      (load_catalog incS incM incK ml kl oc).1 =
        enabledSourceItems incS incM incK ml kl oc) ∧
    load_catalog false true true 10 10 c2Outcomes =
      (c2Items, ["무신사 데이터 수집 실패: Connection refused"]) := by
  refine ⟨?_, ?_, by decide⟩
  · intro incS incM incK ml kl oc
    rw [load_catalog_eq]
    simp only [failedSourceCount]
    split_ifs <;> simp
  · intro incS incM incK ml kl oc hpw
    rw [load_catalog_eq]
    exact dedupAux_eq_self _ [] hpw (by simp)

/-- C2 witness: the error-count identity and the all-items identity
evaluated at the concrete scenario inputs. -/
theorem C2_witness :
    (load_catalog false true true 10 10 c2Outcomes).2.length =
      failedSourceCount false true true 10 10 c2Outcomes ∧
    (load_catalog false true true 10 10 c2Outcomes).1 =
      enabledSourceItems false true true 10 10 c2Outcomes :=
  ⟨C2_partial_failure_isolation.1 false true true 10 10 c2Outcomes,
   C2_partial_failure_isolation.2.1 false true true 10 10 c2Outcomes
     (by decide)⟩

/-! ## Claim C4 -/

theorem effectiveCap_none_one (bc : Nat) (hbc : bc ≠ 0) :
    effectiveCap none 1 bc = 10 := by
  simp only [effectiveCap]
  rw [if_pos hbc]
  have h1 : ((1 : Int).toNat + bc - 1) / bc = 1 := by
    have he : (1 : Int).toNat + bc - 1 = bc := by simp [Int.toNat_one]
    rw [he, Nat.div_self (Nat.pos_of_ne_zero hbc)]
  rw [h1]
  norm_num

theorem effectiveCap_none_bc_zero (L : Int) : effectiveCap none L 0 = L := by
  simp [effectiveCap]

/-- The cap behaviour claim C4 describes, proved of `wishlist_compute` —
the code below the crashing call site (recommendations.py lines 330-339),
which the real function never reaches: with `per_category_cap` unset and a
non-empty bucket set, the derived cap is
`max(10, ceil(limit_total / bucket_count))` (with the line-280 clamp
applied and the true mathematical ceiling), is ≥ 10, and bounds every
bucket's selected length; at `limit_total = 100` with 4 buckets it is 25. -/
theorem wishlist_compute_cap_props (inv : List Item) (p : Profile)
    (limit : Int) (fetched : List Item × List String)
    (hb : bucketsOf (fetched.1.map (scoreEntry inv p)) ≠ []) :
    (wishlist_compute inv p (max limit 1) none fetched).2.per_category_cap =
      max 10 ⌈(limit : ℚ) /
        ((bucketsOf (fetched.1.map (scoreEntry inv p))).length : ℚ)⌉ ∧
    10 ≤ (wishlist_compute inv p (max limit 1) none fetched).2.per_category_cap ∧
    (∀ cl ∈ (wishlist_compute inv p (max limit 1) none fetched).1,
      (cl.2.length : Int) ≤
        (wishlist_compute inv p (max limit 1) none fetched).2.per_category_cap) ∧
    (limit = 100 →
      (bucketsOf (fetched.1.map (scoreEntry inv p))).length = 4 →
      (wishlist_compute inv p (max limit 1) none fetched).2.per_category_cap = 25) := by
  have hbc : (bucketsOf (fetched.1.map (scoreEntry inv p))).length ≠ 0 :=
    fun h => hb (List.length_eq_zero.mp h)
  have hcap := wishlist_compute_cap inv p (max limit 1) none fetched
  have heq := effectiveCap_none_eq limit _ hbc
  have h10 : 10 ≤ (wishlist_compute inv p (max limit 1) none
      fetched).2.per_category_cap := by
    rw [hcap, heq]; exact le_max_left _ _
  refine ⟨by rw [hcap, heq], h10, ?_, ?_⟩
  · intro cl hcl
    rw [wishlist_compute_fst] at hcl
    obtain ⟨bucket, _, hbe⟩ := List.mem_map.mp hcl
    have hlen : cl.2.length =
        (pySlice (effectiveCap none (max limit 1)
            (bucketsOf (fetched.1.map (scoreEntry inv p))).length)
          (List.insertionSort (fun a b => b.score ≤ a.score) bucket.2)).length := by
      rw [← hbe]; exact List.length_map _ _
    rw [hlen]
    have hnn : (0 : Int) ≤ effectiveCap none (max limit 1)
        (bucketsOf (fetched.1.map (scoreEntry inv p))).length := by
      have h := h10
      rw [hcap] at h
      omega
    have hple := length_pySlice_le (effectiveCap none (max limit 1)
        (bucketsOf (fetched.1.map (scoreEntry inv p))).length)
      (List.insertionSort (fun a b => b.score ≤ a.score) bucket.2) hnn
    rw [hcap]
    exact hple
  · intro h100 h4
    rw [hcap, heq, h4, h100]
    have hc : ⌈(100 : ℚ) / 4⌉ = 25 := by
      rw [Int.ceil_eq_iff]
      norm_num
    push_cast
    rw [hc]
    norm_num

/-- Four-category catalog items for the C4 evaluation. -/
def c4ItemA : Item := { name := some "상의후보", category := "상의" }

/-- Trousers item for the C4 evaluation. -/
def c4ItemB : Item := { name := some "바지후보", category := "바지" }

/-- Footwear item for the C4 evaluation. -/
def c4ItemC : Item := { name := some "신발후보", category := "신발" }

/-- Headwear item for the C4 evaluation. -/
def c4ItemD : Item := { name := some "모자후보", category := "모자" }

/-- C4 (code bug): the Python `wishlist_suggestions` never produces the
`meta` cap the claim describes — every call raises `TypeError` at
recommendations.py line 294 (the `refresh_static=` keyword forwarded to
`load_catalog`, which does not accept it), before fetching, scoring or
capping anything.  The continuation the crash preempts (`wishlist_compute`,
the very code lines 330-339 cited by the claim) does derive the claimed
effective cap: 25 at `limit_total = 100` with the four-category catalog. -/
theorem C4_cap_preempted_by_typeerror :
    (∀ (inv : List Item) (p : Profile) (limit : Int) (incS incM incK : Bool)
      (ml kl : Option Int) (rs : Bool) (oc : SourceOutcomes),
      wishlist_suggestions inv p limit none incS incM incK ml kl rs oc =
        .error refreshStaticTypeError) ∧
    (wishlist_compute [] {} 100 none
      ([c4ItemA, c4ItemB, c4ItemC, c4ItemD], [])).2.per_category_cap = 25 :=
  ⟨fun inv p limit incS incM incK ml kl rs oc =>
    wishlist_suggestions_typeerror inv p limit none incS incM incK ml kl rs oc,
   by decide⟩

/-! ## Claim C10 -/

/-- C10 (code bug): the clamp `limit_total = max(int(limit_total), 1)` at
recommendations.py line 280 does make a non-positive limit behave exactly
like `limit_total = 1` — in the embedding the `limit_total = -5` call and
the `limit_total = 1` call are equal — but the claim's "never raises on a
non-positive limit" is false for the reason unrelated to the limit: every
call of `wishlist_suggestions` raises `TypeError` at line 294
(`refresh_static=` forwarded to `load_catalog`, which has no such
parameter).  The cap values the claim describes are computed only by the
dead continuation `wishlist_compute`: at the clamped limit `max (-5) 1 = 1`
it records cap 10 when a bucket exists and the clamped limit 1 when no
bucket exists. -/
theorem C10_clamp_preempted_by_typeerror :
    (∀ (inv : List Item) (p : Profile) (pcc : Option Int)
      (incS incM incK : Bool) (ml kl : Option Int) (rs : Bool)
      (oc : SourceOutcomes),
      wishlist_suggestions inv p (-5) pcc incS incM incK ml kl rs oc =
        .error refreshStaticTypeError ∧
      wishlist_suggestions inv p (-5) pcc incS incM incK ml kl rs oc =
        wishlist_suggestions inv p 1 pcc incS incM incK ml kl rs oc) ∧
    (wishlist_compute [] {} (max (-5) 1) none
      ([{ name := some "셔츠후보", category := "상의" }], [])).2.per_category_cap = 10 ∧
    (wishlist_compute [] {} (max (-5) 1) none ([], [])).2.per_category_cap = 1 :=
  ⟨fun inv p pcc incS incM incK ml kl rs oc =>
    ⟨wishlist_suggestions_typeerror inv p (-5) pcc incS incM incK ml kl rs oc,
     rfl⟩,
   by decide, by decide⟩

/-! ## Claim C1 -/

theorem budget_score_none (price : Int) : _budget_score price none = 0.5 := rfl

theorem budget_score_zero (price : Int) : _budget_score price (some 0) = 0.5 := by
  simp [_budget_score]

theorem budget_score_within {price b : Int} (hb : b ≠ 0)
    (h : price ≤ b * 10000) : _budget_score price (some b) = 1 := by
  simp only [_budget_score]
  rw [if_neg hb, if_pos (by exact_mod_cast h)]
  norm_num

theorem budget_score_stretch {price b : Int} (hb : b ≠ 0)
    (h1 : ¬ price ≤ b * 10000) (h2 : 10 * price ≤ 13 * (b * 10000)) :
    _budget_score price (some b) = 0.6 := by
  simp only [_budget_score]
  have hc1 : ¬ ((price : ℚ) ≤ ((b * 10000 : Int) : ℚ)) := by
    exact_mod_cast h1
  have hq : ((10 * price : Int) : ℚ) ≤ ((13 * (b * 10000) : Int) : ℚ) := by
    exact_mod_cast h2
  push_cast at hq
  have hc2 : (price : ℚ) ≤ ((b * 10000 : Int) : ℚ) * 1.3 := by
    have h13 : (1.3 : ℚ) = 13 / 10 := by norm_num
    rw [h13]
    push_cast
    linarith
  rw [if_neg hb, if_neg hc1, if_pos hc2]

theorem budget_score_over {price b : Int} (hb : b ≠ 0)
    (h1 : ¬ price ≤ b * 10000) (h2 : ¬ 10 * price ≤ 13 * (b * 10000)) :
    _budget_score price (some b) = 0.2 := by
  simp only [_budget_score]
  have hc1 : ¬ ((price : ℚ) ≤ ((b * 10000 : Int) : ℚ)) := by
    exact_mod_cast h1
  have hc2 : ¬ ((price : ℚ) ≤ ((b * 10000 : Int) : ℚ) * 1.3) := by
    intro hle
    apply h2
    have h13 : (1.3 : ℚ) = 13 / 10 := by norm_num
    rw [h13] at hle
    push_cast at hle
    have hqq : ((10 * price : Int) : ℚ) ≤ ((13 * (b * 10000) : Int) : ℚ) := by
      push_cast
      linarith
    exact_mod_cast hqq
  rw [if_neg hb, if_neg hc1, if_neg hc2]

/-- C1 counterexample: the claim says an unknown (null) price scores 0.5,
but with a budget of 5 (만원) an item with `price_krw = None` receives
budget sub-score 1.0, because `wishlist_suggestions` coerces the missing
price to 0 before scoring. -/
theorem C1_counterexample :
    (scoreEntry [] { budget := some 5 }
      { name := some "가방", price_krw := none }).budget_score = 1 ∧
    (scoreEntry [] { budget := some 5 }
      { name := some "가방", price_krw := none }).budget_score ≠ 0.5 := by
  have h : (scoreEntry [] ({ budget := some 5 } : Profile)
      ({ name := some "가방", price_krw := none } : Item)).budget_score =
      _budget_score 0 (some 5) := rfl
  have h1 : _budget_score 0 (some 5) = 1 :=
    budget_score_within (by norm_num) (by norm_num)
  refine ⟨by rw [h, h1], by rw [h, h1]; norm_num⟩

/-- C1 (amended): the budget sub-score used by `wishlist_suggestions` is
1.0 if the (coerced) price ≤ budget·10000, 0.6 if ≤ budget·10000·1.3, 0.2
beyond that, and 0.5 when the profile has no budget or a zero budget.  An
unknown (null) price is coerced to 0 before scoring — hence scores 1.0
whenever a positive budget is set, not 0.5.  At the boundaries, a price of
exactly budget·10000 scores 1.0 and a price of budget·10000·1.3 + 1
(= budget·13000 + 1) scores 0.2. -/
theorem C1_budget_score_corrected :
    (∀ price : Int, _budget_score price none = 0.5) ∧
    (∀ price : Int, _budget_score price (some 0) = 0.5) ∧
    (∀ price b : Int, b ≠ 0 → price ≤ b * 10000 →
      _budget_score price (some b) = 1) ∧
    (∀ price b : Int, b ≠ 0 → ¬ price ≤ b * 10000 →
      10 * price ≤ 13 * (b * 10000) → _budget_score price (some b) = 0.6) ∧
    (∀ price b : Int, b ≠ 0 → ¬ price ≤ b * 10000 →
      ¬ 10 * price ≤ 13 * (b * 10000) → _budget_score price (some b) = 0.2) ∧
    (∀ (inv : List Item) (p : Profile) (i : Item), i.price_krw = none →
      (scoreEntry inv p i).budget_score = _budget_score 0 p.budget) ∧
    (∀ b : Int, 0 < b →
      _budget_score (b * 10000) (some b) = 1 ∧
      _budget_score (b * 13000 + 1) (some b) = 0.2) := by
  refine ⟨budget_score_none, budget_score_zero,
    fun _ _ hb h => budget_score_within hb h,
    fun _ _ hb h1 h2 => budget_score_stretch hb h1 h2,
    fun _ _ hb h1 h2 => budget_score_over hb h1 h2, ?_, ?_⟩
  · intro inv p i hpk
    simp only [scoreEntry, hpk, Option.getD_none]
  · intro b hb
    refine ⟨budget_score_within (by omega) le_rfl, ?_⟩
    exact budget_score_over (by omega) (by omega) (by omega)

/-- C1 witness: the corrected description evaluated at concrete prices and
budgets (budget 5 만원; prices 50000, 60000, 65001; an unknown price with a
set budget; the exact boundary pair at budget 1). -/
theorem C1_witness :
    _budget_score 40000 none = 0.5 ∧
    _budget_score 40000 (some 0) = 0.5 ∧
    _budget_score 50000 (some 5) = 1 ∧
    _budget_score 60000 (some 5) = 0.6 ∧
    _budget_score 65001 (some 5) = 0.2 ∧
    (scoreEntry [] { budget := some 5 }
      { name := some "모자후보2", price_krw := none }).budget_score =
      _budget_score 0 (some 5) ∧
    (_budget_score 10000 (some 1) = 1 ∧ _budget_score 13001 (some 1) = 0.2) :=
  ⟨C1_budget_score_corrected.1 40000,
   C1_budget_score_corrected.2.1 40000,
   C1_budget_score_corrected.2.2.1 50000 5 (by decide) (by decide),
   C1_budget_score_corrected.2.2.2.1 60000 5 (by decide) (by decide) (by decide),
   C1_budget_score_corrected.2.2.2.2.1 65001 5 (by decide) (by decide) (by decide),
   C1_budget_score_corrected.2.2.2.2.2.1 [] { budget := some 5 }
     { name := some "모자후보2", price_krw := none } (by decide),
   C1_budget_score_corrected.2.2.2.2.2.2 1 (by decide)⟩

/-! ## Claim C6 -/

/-- Dress-branch profile for the C6 counterexample: a season preference but
no style preference. -/
def c6Profile : Profile := { season := ["여름"] }

/-- Dress item for the C6 counterexample. -/
def c6Dress : Item := { name := some "원피스1", category := "원피스" }

/-- Footwear item for the C6 counterexample. -/
def c6Shoe : Item := { name := some "신발1", category := "신발" }

/-- First outer layer for the C6 counterexample: no style tags (style
alignment 0.4), in-season (season alignment 1.0). -/
def c6OuterA : Item :=
  { name := some "아우터A", category := "아우터", season := ["여름"] }

/-- Second outer layer for the C6 counterexample: tagged (style alignment
0.6), out of season (season alignment 0.2). -/
def c6OuterB : Item :=
  { name := some "아우터B", category := "아우터", style_tags := ["스트릿"],
    season := ["겨울"] }

/-- Inventory for the C6 counterexample. -/
def c6Inv : List Item := [c6Dress, c6Shoe, c6OuterA, c6OuterB]

/-- C6 counterexample: in the dress × footwear branch the appended outer
layer is chosen by *season* alignment, not style alignment — the produced
outfit appends `c6OuterA` although the style-alignment maximiser among the
owned outer layers is `c6OuterB`; moreover no headwear slot exists in this
branch. -/
theorem C6_counterexample :
    (outfit_suggestions c6Inv c6Profile 6).map (fun o => o.items) =
      [[c6Dress, c6Shoe, c6OuterA]] ∧
    pyMax (fun i => _style_alignment i.style_tags c6Profile.style_preferences)
      (_inventory_by_category c6Inv "아우터") = some c6OuterB ∧
    c6OuterA ≠ c6OuterB := by
  have hout : outfit_suggestions c6Inv c6Profile 6 =
      [mkDressCombo c6Profile [c6OuterA, c6OuterB] c6Dress c6Shoe] := rfl
  have hsA : _season_alignment c6OuterA.season c6Profile.season = 1.0 := rfl
  have hsB : _season_alignment c6OuterB.season c6Profile.season = 0.2 := rfl
  have hnlt : ¬ (_season_alignment c6OuterA.season c6Profile.season <
      _season_alignment c6OuterB.season c6Profile.season) := by
    rw [hsA, hsB]; norm_num
  have hmaxS : pyMax (fun i => _season_alignment i.season c6Profile.season)
      [c6OuterA, c6OuterB] = some c6OuterA := by
    simp [pyMax, hnlt]
  refine ⟨?_, ?_, by decide⟩
  · rw [hout]
    simp [mkDressCombo_items, hmaxS, optToList]
  · have hcat : _inventory_by_category c6Inv "아우터" = [c6OuterA, c6OuterB] := by
      decide
    rw [hcat]
    have htA : _style_alignment c6OuterA.style_tags c6Profile.style_preferences
        = 0.4 := rfl
    have htB : _style_alignment c6OuterB.style_tags c6Profile.style_preferences
        = 0.6 := rfl
    have hlt : _style_alignment c6OuterA.style_tags c6Profile.style_preferences <
        _style_alignment c6OuterB.style_tags c6Profile.style_preferences := by
      rw [htA, htB]; norm_num
    simp [pyMax, hlt]

/-- C6 (amended): in the tops × bottoms × footwear combinations the
appended optional outer layer is the owned outer-layer candidate maximising
*style* alignment and the appended optional headwear the candidate
maximising *season* alignment; in the dresses × footwear combinations the
appended optional outer layer is instead the candidate maximising *season*
alignment and no headwear is appended.  In every case the choice is
Python `max`: the first-encountered candidate wins ties (everything before
the winner has a strictly smaller key, everything after at most the
winner's key). -/
theorem C6_outer_headwear_corrected :
    (∀ (inv : List Item) (p : Profile) (n : Nat) (o : Combo),
      o ∈ outfit_suggestions inv p n →
      (∃ t b s, t ∈ _inventory_by_category inv "상의" ∧
        b ∈ _inventory_by_category inv "바지" ++ _inventory_by_category inv "스커트" ∧
        s ∈ _inventory_by_category inv "신발" ∧
        o.items = [t, b, s]
          ++ optToList (pyMax
              (fun i => _style_alignment i.style_tags p.style_preferences)
              (_inventory_by_category inv "아우터"))
          ++ optToList (pyMax
              (fun i => _season_alignment i.season p.season)
              (_inventory_by_category inv "모자"))) ∨
      (∃ d s, d ∈ _inventory_by_category inv "원피스" ∧
        s ∈ _inventory_by_category inv "신발" ∧
        o.items = [d, s] ++ optToList (pyMax
          (fun i => _season_alignment i.season p.season)
          (_inventory_by_category inv "아우터")))) ∧
    (∀ (f : Item → ℚ) (l : List Item) (x : Item), pyMax f l = some x →
      ∃ l1 l2, l = l1 ++ x :: l2 ∧
        (∀ y ∈ l1, f y < f x) ∧ (∀ y ∈ l2, f y ≤ f x)) := by
  constructor
  · intro inv p n o h
    rcases mem_outfit_suggestions_structure h with
      ⟨t, b, s, ht, hb, hs, he⟩ | ⟨d, s, hd, hs, he⟩
    · exact Or.inl ⟨t, b, s, ht, hb, hs, by rw [he, mkTopCombo_items]⟩
    · exact Or.inr ⟨d, s, hd, hs, by rw [he, mkDressCombo_items]⟩
  · intro f l x h
    exact pyMax_split h

/-- Dress for the C6/C7 witnesses. -/
def c6wDress : Item :=
  { name := some "원피스W", category := "원피스", style_tags := ["미니멀"] }

/-- Footwear for the C6/C7 witnesses. -/
def c6wShoe : Item := { name := some "신발W", category := "신발" }

/-- Single owned outer layer for the C6/C7 witnesses. -/
def c6wOuter : Item := { name := some "아우터W", category := "아우터" }

/-- C6 witness: the amended description evaluated on a concrete
one-dress/one-shoe/one-outer inventory, plus the first-wins split of
`pyMax` on the singleton outer list. -/
theorem C6_witness :
    ((∃ t b s, t ∈ _inventory_by_category [c6wDress, c6wShoe, c6wOuter] "상의" ∧
      b ∈ _inventory_by_category [c6wDress, c6wShoe, c6wOuter] "바지" ++
        _inventory_by_category [c6wDress, c6wShoe, c6wOuter] "스커트" ∧
      s ∈ _inventory_by_category [c6wDress, c6wShoe, c6wOuter] "신발" ∧
      (mkDressCombo {} [c6wOuter] c6wDress c6wShoe).items = [t, b, s]
        ++ optToList (pyMax
            (fun i => _style_alignment i.style_tags ({} : Profile).style_preferences)
            (_inventory_by_category [c6wDress, c6wShoe, c6wOuter] "아우터"))
        ++ optToList (pyMax
            (fun i => _season_alignment i.season ({} : Profile).season)
            (_inventory_by_category [c6wDress, c6wShoe, c6wOuter] "모자"))) ∨
    (∃ d s, d ∈ _inventory_by_category [c6wDress, c6wShoe, c6wOuter] "원피스" ∧
      s ∈ _inventory_by_category [c6wDress, c6wShoe, c6wOuter] "신발" ∧
      (mkDressCombo {} [c6wOuter] c6wDress c6wShoe).items = [d, s]
        ++ optToList (pyMax
            (fun i => _season_alignment i.season ({} : Profile).season)
            (_inventory_by_category [c6wDress, c6wShoe, c6wOuter] "아우터")))) ∧
    (∃ l1 l2, [c6wOuter] = l1 ++ c6wOuter :: l2 ∧
      (∀ y ∈ l1, _season_alignment y.season ({} : Profile).season <
        _season_alignment c6wOuter.season ({} : Profile).season) ∧
      (∀ y ∈ l2, _season_alignment y.season ({} : Profile).season ≤
        _season_alignment c6wOuter.season ({} : Profile).season)) :=
  ⟨C6_outer_headwear_corrected.1 [c6wDress, c6wShoe, c6wOuter] {} 6
      (mkDressCombo {} [c6wOuter] c6wDress c6wShoe)
      ((show outfit_suggestions [c6wDress, c6wShoe, c6wOuter] {} 6 =
          [mkDressCombo {} [c6wOuter] c6wDress c6wShoe] from rfl) ▸
        List.mem_cons_self _ _),
   C6_outer_headwear_corrected.2
     (fun i => _season_alignment i.season ({} : Profile).season)
     [c6wOuter] c6wOuter rfl⟩

/-! ## Claim C7 -/

/-- Candidate item for the C7 counterexample and witness. -/
def c7Cand : Item := { name := some "코트후보", category := "아우터" }

/-- C7 counterexample: with an empty wardrobe the catalog-anchored
completion contains a single item (the bare candidate), violating the
claimed lower bound of 2. -/
theorem C7_counterexample :
    (_build_catalog_outfit c7Cand [] {}).length = 1 ∧
    ¬ (2 ≤ (_build_catalog_outfit c7Cand [] {}).length) := by decide

/-- C7 (amended): every self-contained outfit produced by
`outfit_suggestions` contains between 2 and 5 items; every catalog-anchored
completion contains between 1 and 5 items (the lower bound 2 fails exactly
when no supporting owned item exists, in which case the bare candidate is
returned). -/
theorem C7_size_bounds_corrected :
    (∀ (inv : List Item) (p : Profile) (n : Nat) (o : Combo),
      o ∈ outfit_suggestions inv p n →
      2 ≤ o.items.length ∧ o.items.length ≤ 5) ∧
    (∀ (ci : Item) (inv : List Item) (p : Profile),
      1 ≤ (_build_catalog_outfit ci inv p).length ∧
      (_build_catalog_outfit ci inv p).length ≤ 5) := by
  constructor
  · intro inv p n o h
    rcases mem_outfit_suggestions_structure h with
      ⟨t, b, s, _, _, _, he⟩ | ⟨d, s, _, _, he⟩
    · rw [he, mkTopCombo_items]
      have h1 := optToList_length_le (pyMax
        (fun i => _style_alignment i.style_tags p.style_preferences)
        (_inventory_by_category inv "아우터"))
      have h2 := optToList_length_le (pyMax
        (fun i => _season_alignment i.season p.season)
        (_inventory_by_category inv "모자"))
      simp only [List.length_append, List.length_cons, List.length_nil]
      omega
    · rw [he, mkDressCombo_items]
      have h1 := optToList_length_le (pyMax
        (fun i => _season_alignment i.season p.season)
        (_inventory_by_category inv "아우터"))
      simp only [List.length_append, List.length_cons, List.length_nil]
      omega
  · intro ci inv p
    have h1 : (_best_inventory_matches inv (requiredCategories ci.category) p).length
        ≤ (requiredCategories ci.category).length := by
      unfold _best_inventory_matches
      exact List.length_filterMap_le _ _
    have h2 : (requiredCategories ci.category).length ≤ 3 := by
      unfold requiredCategories
      split_ifs <;> simp
    unfold _build_catalog_outfit
    simp only [List.length_cons]
    omega

/-- C7 witness: the bounds evaluated on a concrete produced outfit (3
items) and on a concrete bare-candidate completion (1 item). -/
theorem C7_witness :
    (2 ≤ (mkDressCombo {} [c6wOuter] c6wDress c6wShoe).items.length ∧
      (mkDressCombo {} [c6wOuter] c6wDress c6wShoe).items.length ≤ 5) ∧
    (1 ≤ (_build_catalog_outfit c7Cand [] {}).length ∧
      (_build_catalog_outfit c7Cand [] {}).length ≤ 5) :=
  ⟨C7_size_bounds_corrected.1 [c6wDress, c6wShoe, c6wOuter] {} 6
      (mkDressCombo {} [c6wOuter] c6wDress c6wShoe)
      ((show outfit_suggestions [c6wDress, c6wShoe, c6wOuter] {} 6 =
          [mkDressCombo {} [c6wOuter] c6wDress c6wShoe] from rfl) ▸
        List.mem_cons_self _ _),
   C7_size_bounds_corrected.2 c7Cand [] {}⟩

end AIStyler
